import Mathlib

/-
Shallow embedding of `homeassistant/components/discovery.py`.

The module translates each Python function into a Lean function that
returns the sequence of observable effects it performs (log calls,
`bootstrap.setup_component` calls, `hass.bus.fire` calls, and the
acquisition and release of the dispatcher lock), together with the
exception it propagates, if any.  Python values occurring in discovery
payloads (strings, `None`, the registry 2-tuples, string-keyed dicts)
are modelled by the inductive type `Py`.
-/

namespace Discovery

mutual

/-- Python values that flow through the discovery module: strings, `None`,
the registry `(component, platform)` 2-tuples, and string-keyed
dictionaries (insertion-ordered, matching CPython dict semantics). -/
inductive Py where
  | pstr : String → Py
  | pnone : Py
  | ppair : Py → Py → Py
  | pdict : PyEntries → Py
  deriving DecidableEq, Repr

/-- The insertion-ordered entries of a Python dict. -/
inductive PyEntries where
  | nil : PyEntries
  | cons : String → Py → PyEntries → PyEntries
  deriving DecidableEq, Repr

end

/-- Convenience constructor for dict entries from a list literal. -/
def entriesOf : List (String × Py) → PyEntries
  | [] => PyEntries.nil
  | (k, v) :: rest => PyEntries.cons k v (entriesOf rest)

/-- Python `key in d` on a dict. -/
def PyEntries.hasKey : PyEntries → String → Bool
  | PyEntries.nil, _ => false
  | PyEntries.cons k0 _ rest, k => k0 == k || rest.hasKey k

/-- Python `d[k] = v` on a dict: overwrites the value in place when the
key exists (keeping its position, as CPython does), otherwise appends
the new key at the end. -/
def PyEntries.set : PyEntries → String → Py → PyEntries
  | PyEntries.nil, k, v => PyEntries.cons k v PyEntries.nil
  | PyEntries.cons k0 v0 rest, k, v =>
      if k0 == k then PyEntries.cons k v rest
      else PyEntries.cons k0 v0 (rest.set k v)

/-- Python `d.get(k)`: the value when the key is present. -/
def PyEntries.get? : PyEntries → String → Option Py
  | PyEntries.nil, _ => Option.none
  | PyEntries.cons k0 v0 rest, k => if k0 == k then some v0 else rest.get? k

/-- Python `d.get(k)` with the `None` default materialised as `Py.pnone`. -/
def PyEntries.getD : PyEntries → String → Py :=
  fun d k => (d.get? k).getD Py.pnone

/-- Modelled from the spec: `ATTR_SERVICE` is imported from
`homeassistant.const`, which is not among the source files; the spec
names the event field `service`. -/
def ATTR_SERVICE : String := "service"

/-- Modelled from the spec: `ATTR_DISCOVERED` is imported from
`homeassistant.const`, which is not among the source files; the spec
names the event field `discovered`. -/
def ATTR_DISCOVERED : String := "discovered"

/-- Modelled from the spec: `EVENT_PLATFORM_DISCOVERED` is imported from
`homeassistant.const`; its concrete string is opaque to this module. -/
def EVENT_PLATFORM_DISCOVERED : String := "platform_discovered"

/-- Modelled from the spec: `EVENT_HOMEASSISTANT_START` is imported from
`homeassistant.const`; its concrete string is opaque to this module. -/
def EVENT_HOMEASSISTANT_START : String := "homeassistant_start"

/-- Source constant `LOAD_PLATFORM = 'load_platform'`. -/
def LOAD_PLATFORM : String := "load_platform"

/-- Source constant `SERVICE_WEMO = 'belkin_wemo'`. -/
def SERVICE_WEMO : String := "belkin_wemo"

/-- Source constant `SERVICE_NETGEAR = 'netgear_router'`. -/
def SERVICE_NETGEAR : String := "netgear_router"

/-- Source table `SERVICE_HANDLERS`: maps a service identifier to its
`(component, platform)` route, `platform` being `None` for the first two
entries. -/
def SERVICE_HANDLERS : List (String × (String × Option String)) :=
  [ (SERVICE_NETGEAR, ("device_tracker", Option.none)),
    (SERVICE_WEMO, ("wemo", Option.none)),
    ("philips_hue", ("light", some "hue")),
    ("google_cast", ("media_player", some "cast")),
    ("panasonic_viera", ("media_player", some "panasonic_viera")),
    ("plex_mediaserver", ("media_player", some "plex")),
    ("roku", ("media_player", some "roku")),
    ("sonos", ("media_player", some "sonos")),
    ("logitech_mediaserver", ("media_player", some "squeezebox")) ]

/-- Python `SERVICE_HANDLERS.get(service)`: `None` when the key is
absent.  Every value in the table is a non-empty tuple, hence truthy, so
the source test `if not info` is exactly the `None` test modelled by
this `Option`. -/
def serviceHandlersGet (service : String) : Option (String × Option String) :=
  (SERVICE_HANDLERS.find? (fun e => e.1 == service)).map (fun e => e.2)

/-- Python `v[k] = x` on an arbitrary value: succeeds on a dict and
raises `TypeError` on anything else (in particular on a tuple and on
`None`). -/
def setItem (v : Py) (k : String) (x : Py) : Except String Py :=
  match v with
  | Py.pdict d => Except.ok (Py.pdict (d.set k x))
  | _ => Except.error "TypeError: object does not support item assignment"

/-- One observable effect of the discovery module:
`acquire`/`release` delimit the `with lock:` critical section,
`log` is `logger.info`, `setupComponent` is the call
`bootstrap.setup_component(hass, component, hass_config)` (the component
argument is a `Py` because the source can pass a non-string there), and
`fire` is `hass.bus.fire(event_type, data)`. -/
inductive Effect where
  | acquire : Effect
  | release : Effect
  | log : String → Py → Effect
  | setupComponent : Py → Option Py → Effect
  | fire : String → PyEntries → Effect
  deriving DecidableEq, Repr

/-- Whether an effect is a `bootstrap.setup_component` call. -/
def isLoad : Effect → Bool
  | Effect.setupComponent _ _ => true
  | _ => false

/-- Whether an effect is a `hass.bus.fire` call. -/
def isFire : Effect → Bool
  | Effect.fire _ _ => true
  | _ => false

/-- Whether an effect is the lock acquisition. -/
def isAcquire : Effect → Bool
  | Effect.acquire => true
  | _ => false

/-- Whether an effect is the lock release. -/
def isRelease : Effect → Bool
  | Effect.release => true
  | _ => false

/-- The effects inside the critical section of a trace: the effects
strictly between the first `acquire` and the following `release`. -/
def insideLock (l : List Effect) : List Effect :=
  (((l.dropWhile (fun e => !isAcquire e)).drop 1).takeWhile (fun e => !isRelease e))

/-- The effects after the first `release` of a trace. -/
def afterRelease (l : List Effect) : List Effect :=
  ((l.dropWhile (fun e => !isRelease e)).drop 1)

/-- The effects a run performs and the exception it propagates, if any
(Python effects performed before a raise are kept). -/
structure Outcome where
  effects : List Effect
  error : Option String
  deriving DecidableEq, Repr

/-- Python `x is None` materialised on `Py` arguments: used where a
caller passes a plain Python value into an `Optional` parameter slot. -/
def optOfPy : Py → Option Py
  | Py.pnone => Option.none
  | v => some v

/-- Source function `discover(hass, service, discovered=None,
component=None, hass_config=None)`: when `component is not None` it first
calls `bootstrap.setup_component(hass, component, hass_config)`, then
builds `data = \x7bATTR_SERVICE: service\x7d`, adds `ATTR_DISCOVERED`
when `discovered is not None`, and fires `EVENT_PLATFORM_DISCOVERED`. -/
def discover (service : String) (discovered : Option Py) (component : Option Py)
    (hass_config : Option Py) : List Effect :=
  (match component with
   | some c => [Effect.setupComponent c hass_config]
   | Option.none => []) ++
  [Effect.fire EVENT_PLATFORM_DISCOVERED
    (match discovered with
     | some d => PyEntries.cons ATTR_SERVICE (Py.pstr service)
         (PyEntries.cons ATTR_DISCOVERED d PyEntries.nil)
     | Option.none => PyEntries.cons ATTR_SERVICE (Py.pstr service) PyEntries.nil)]

/-- Source function `load_platform(hass, component, platform, info=None,
hass_config=None)`: when `info is None` it binds
`info = \x7bLOAD_PLATFORM: platform\x7d`, otherwise it executes
`info[LOAD_PLATFORM] = platform` (which raises `TypeError` when `info` is
not a dict), then delegates to
`discover(hass, LOAD_PLATFORM + "." + component, info, component,
hass_config)`. -/
def load_platform (component : String) (platform : String) (info : Option Py)
    (hass_config : Option Py) : Outcome :=
  match info with
  | Option.none =>
      { effects := discover (LOAD_PLATFORM ++ "." ++ component)
          (some (Py.pdict (PyEntries.cons LOAD_PLATFORM (Py.pstr platform) PyEntries.nil)))
          (some (Py.pstr component)) hass_config,
        error := Option.none }
  | some i =>
      match setItem i LOAD_PLATFORM (Py.pstr platform) with
      | Except.error e => { effects := [], error := some e }
      | Except.ok i2 =>
          { effects := discover (LOAD_PLATFORM ++ "." ++ component) (some i2)
              (some (Py.pstr component)) hass_config,
            error := Option.none }

/-- The registry route rebound over the scanner's `info` variable, as a
Python value: the 2-tuple `(component, platform)`. -/
def routeToPy (component : String) (platform : Option String) : Py :=
  Py.ppair (Py.pstr component)
    (match platform with
     | some p => Py.pstr p
     | Option.none => Py.pnone)

/-- Source closure `new_service_listener(service, info)` from `setup`.
Its whole body runs under `with lock:`; it logs the original arguments,
then executes `info = SERVICE_HANDLERS.get(service)` — rebinding `info`
to the registry route — returns when the lookup misses, and otherwise
dispatches the REBOUND `info` (the route tuple): the platform-`None`
branch calls `discover(hass, service, info, config)` (so `config` lands
in the `component` parameter slot and `hass_config` stays `None`), and
the platform branch calls
`load_platform(hass, component, platform, info, config)`.  The `with`
statement releases the lock even when the body raises. -/
def new_service_listener (config : Py) (service : String) (info : Py) : Outcome :=
  let logEff := Effect.log service info
  match serviceHandlersGet service with
  | Option.none =>
      { effects := [Effect.acquire, logEff, Effect.release], error := Option.none }
  | some (component, platform) =>
      match platform with
      | Option.none =>
          { effects := Effect.acquire :: logEff ::
              discover service (some (routeToPy component Option.none))
                (optOfPy config) Option.none ++ [Effect.release],
            error := Option.none }
      | some plat =>
          let r := load_platform component plat
            (some (routeToPy component (some plat))) (optOfPy config)
          { effects := Effect.acquire :: logEff :: r.effects ++ [Effect.release],
            error := r.error }

/-- The `service` argument of `listen`: `isinstance(service, str)` picks
the first branch, a list or tuple the second. -/
inductive ServiceSpec where
  | single : String → ServiceSpec
  | many : List String → ServiceSpec
  deriving DecidableEq, Repr

/-- Source `listen`: a string becomes the 1-tuple `(service,)`, any other
collection becomes `tuple(service)`. -/
def listenServices : ServiceSpec → List String
  | ServiceSpec.single s => [s]
  | ServiceSpec.many l => l

/-- Python `v in services` where `services` is a tuple of strings: string
equality, false for any non-string value. -/
def pyMem (v : Py) (services : List String) : Bool :=
  match v with
  | Py.pstr s => services.contains s
  | _ => false

/-- Source closure `discovery_event_listener(event)` registered by
`listen`: when `ATTR_SERVICE in event.data` and the value is a member of
the requested tuple, it calls
`callback(event.data[ATTR_SERVICE], event.data.get(ATTR_DISCOVERED))`.
The returned list is the sequence of callback invocations. -/
def discovery_event_listener (services : List String) (eventData : PyEntries) :
    List (Py × Py) :=
  if eventData.hasKey ATTR_SERVICE && pyMem (eventData.getD ATTR_SERVICE) services then
    [(eventData.getD ATTR_SERVICE, eventData.getD ATTR_DISCOVERED)]
  else []

/-- Reference-semantics model of `load_platform` for the aliasing
behaviour: Python dicts are heap objects passed by reference.  A heap is
a list of dicts addressed by index; the scanner or caller may pass its
dict by reference (`some r`).  The result records the final heap, the
reference stored under `ATTR_DISCOVERED` in the fired event payload, the
event service string, and the component passed to the loader.  Faithful
to the source: `info[LOAD_PLATFORM] = platform` mutates the referenced
dict in place and the SAME reference is passed to `discover`, which puts
it in the event data without copying. -/
structure HeapRun where
  heap : List PyEntries
  payloadRef : Nat
  service : String
  componentLoaded : String
  deriving DecidableEq, Repr

/-- `load_platform` over the reference-semantics heap model (same source
lines as `load_platform`; dict identity made explicit).  With
`info = none` a fresh dict `\x7bLOAD_PLATFORM: platform\x7d` is
allocated; with `info = some r` the dict at `r` is mutated in place and
`r` itself becomes the event payload reference. -/
def load_platform_heap (heap : List PyEntries) (component : String)
    (platform : String) (info : Option Nat) : HeapRun :=
  match info with
  | Option.none =>
      { heap := heap ++ [PyEntries.cons LOAD_PLATFORM (Py.pstr platform) PyEntries.nil],
        payloadRef := heap.length,
        service := LOAD_PLATFORM ++ "." ++ component,
        componentLoaded := component }
  | some r =>
      { heap := heap.set r ((heap.getD r PyEntries.nil).set LOAD_PLATFORM (Py.pstr platform)),
        payloadRef := r,
        service := LOAD_PLATFORM ++ "." ++ component,
        componentLoaded := component }

/-- Modelled from the spec: the Event Bus collaborator offers one-shot
listener registration (`hass.bus.listen_once`) with synchronous delivery;
a one-shot listener is removed after its first matching delivery.  The
state tracks the event types for which `start_discovery` is registered as
a one-shot listener, and how many times the network scan has been
started (each delivery to `start_discovery` constructs and starts one
`DiscoveryService` scan). -/
structure StartupBus where
  onceListeners : List String
  scanStarts : Nat
  deriving DecidableEq, Repr

/-- Modelled from the spec: firing an event delivers it to every matching
one-shot listener exactly once and removes those listeners. -/
def fireBusEvent (b : StartupBus) (eventType : String) : StartupBus :=
  { onceListeners := b.onceListeners.filter (fun e => !(e == eventType)),
    scanStarts := b.scanStarts + (b.onceListeners.filter (fun e => e == eventType)).length }

/-- Source `setup(hass, config)`: registers `start_discovery` via
`hass.bus.listen_once(EVENT_HOMEASSISTANT_START, start_discovery)`, with
no scan started yet. -/
def setup_bus : StartupBus :=
  { onceListeners := [EVENT_HOMEASSISTANT_START], scanStarts := 0 }

/-- The bus state after `n` application-start signals following setup. -/
def fireStartTimes : Nat → StartupBus
  | 0 => setup_bus
  | Nat.succ n => fireBusEvent (fireStartTimes n) EVENT_HOMEASSISTANT_START

/-- A key present in a dict is found by `hasKey`. -/
theorem hasKey_of_get? : (d : PyEntries) → (k : String) → (v : Py) →
    d.get? k = some v → d.hasKey k = true
  | PyEntries.nil, k, v, h => by simp [PyEntries.get?] at h
  | PyEntries.cons k0 v0 rest, k, v, h => by
      cases hk0 : (k0 == k) with
      | true => simp [PyEntries.hasKey, hk0]
      | false =>
          simp only [PyEntries.get?, hk0] at h
          simp only [Bool.false_eq_true, if_false] at h
          simp [PyEntries.hasKey, hk0, hasKey_of_get? rest k v h]

/-- C1: the claim states that dispatching a registry service whose route
has no platform fires one event whose `discovered` equals the scanner's
info and loads the route's component.  Evaluating the dispatcher at
`("belkin_wemo", \x7bhost: 1.2.3.4\x7d)` with config `\x7b\x7d` shows the
code instead fires `discovered = ("wemo", None)` — the registry route
tuple, because `info = SERVICE_HANDLERS.get(service)` rebinds the
scanner's `info` — and passes the config object, not `"wemo"`, as the
component to load (positional slip in `discover(hass, service, info,
config)`). -/
theorem C1_platform_absent_dispatch_bug :
    new_service_listener (Py.pdict PyEntries.nil) SERVICE_WEMO
        (Py.pdict (PyEntries.cons "host" (Py.pstr "1.2.3.4") PyEntries.nil)) =
      { effects := [Effect.acquire,
          Effect.log SERVICE_WEMO
            (Py.pdict (PyEntries.cons "host" (Py.pstr "1.2.3.4") PyEntries.nil)),
          Effect.setupComponent (Py.pdict PyEntries.nil) Option.none,
          Effect.fire EVENT_PLATFORM_DISCOVERED
            (PyEntries.cons ATTR_SERVICE (Py.pstr SERVICE_WEMO)
              (PyEntries.cons ATTR_DISCOVERED (Py.ppair (Py.pstr "wemo") Py.pnone)
                PyEntries.nil)),
          Effect.release],
        error := Option.none } ∧
    Py.ppair (Py.pstr "wemo") Py.pnone ≠
      Py.pdict (PyEntries.cons "host" (Py.pstr "1.2.3.4") PyEntries.nil) ∧
    Py.pdict PyEntries.nil ≠ Py.pstr "wemo" := by
  refine ⟨rfl, by decide, by decide⟩

/-- C2: the claim states that dispatching a service routed to
`(component, platform)` loads the component and fires one load-platform
event preserving the scanner's info keys.  Evaluating the dispatcher at
`("sonos", \x7bhost: 10.0.0.5\x7d)` shows the code instead raises
`TypeError` — the rebound `info` is the registry tuple
`("media_player", "sonos")` and `info[LOAD_PLATFORM] = platform` is a
tuple item assignment — so no component is loaded and no event fires. -/
theorem C2_platform_present_dispatch_bug :
    (new_service_listener (Py.pdict PyEntries.nil) "sonos"
        (Py.pdict (PyEntries.cons "host" (Py.pstr "10.0.0.5") PyEntries.nil))).error =
      some "TypeError: object does not support item assignment" ∧
    ((new_service_listener (Py.pdict PyEntries.nil) "sonos"
        (Py.pdict (PyEntries.cons "host" (Py.pstr "10.0.0.5") PyEntries.nil))).effects.filter
      isFire) = [] ∧
    ((new_service_listener (Py.pdict PyEntries.nil) "sonos"
        (Py.pdict (PyEntries.cons "host" (Py.pstr "10.0.0.5") PyEntries.nil))).effects.filter
      isLoad) = [] := by
  refine ⟨rfl, rfl, rfl⟩

/-- C3 counterexample: the claim states that `load_platform` dispatches a
copy of the caller's mapping and leaves the caller's mapping unchanged.
At heap `[\x7bhost: 10.0.0.5\x7d]` with the caller's dict at reference 0,
the fired payload is reference 0 itself (an alias, not a copy) and the
dict at reference 0 has gained the `load_platform` key, so both parts of
the claim fail. -/
theorem C3_payload_not_copied :
    ¬ ((load_platform_heap [PyEntries.cons "host" (Py.pstr "10.0.0.5") PyEntries.nil]
          "media_player" "sonos" (some 0)).payloadRef ≠ 0 ∧
       (load_platform_heap [PyEntries.cons "host" (Py.pstr "10.0.0.5") PyEntries.nil]
          "media_player" "sonos" (some 0)).heap.getD 0 PyEntries.nil =
         PyEntries.cons "host" (Py.pstr "10.0.0.5") PyEntries.nil) := by
  decide

/-- C3 amended: `load_platform` dispatches the caller's mapping by
reference, not by copy: the event payload is the caller's own dict
reference, and the call mutates that dict in place by setting
`load_platform = platform`, so the caller's mapping is changed by the
call and later mutations of it are visible in the dispatched payload. -/
theorem C3_payload_aliases_caller (heap : List PyEntries) (component : String)
    (platform : String) (r : Nat) (h : r < heap.length) :
    (load_platform_heap heap component platform (some r)).payloadRef = r ∧
    (load_platform_heap heap component platform (some r)).heap.getD r PyEntries.nil =
      (heap.getD r PyEntries.nil).set LOAD_PLATFORM (Py.pstr platform) := by
  refine ⟨rfl, ?_⟩
  show (heap.set r ((heap.getD r PyEntries.nil).set LOAD_PLATFORM
      (Py.pstr platform))).getD r PyEntries.nil =
    (heap.getD r PyEntries.nil).set LOAD_PLATFORM (Py.pstr platform)
  simp [List.getD, List.getElem?_set, h]

/-- C3 amended, witness at a concrete heap. -/
theorem C3_payload_aliases_caller_witness :
    0 < ([PyEntries.cons "host" (Py.pstr "10.0.0.5") PyEntries.nil] :
        List PyEntries).length ∧
    ((load_platform_heap [PyEntries.cons "host" (Py.pstr "10.0.0.5") PyEntries.nil]
        "media_player" "sonos" (some 0)).payloadRef = 0 ∧
     (load_platform_heap [PyEntries.cons "host" (Py.pstr "10.0.0.5") PyEntries.nil]
        "media_player" "sonos" (some 0)).heap.getD 0 PyEntries.nil =
       (([PyEntries.cons "host" (Py.pstr "10.0.0.5") PyEntries.nil] :
          List PyEntries).getD 0 PyEntries.nil).set LOAD_PLATFORM (Py.pstr "sonos")) :=
  ⟨by decide,
   C3_payload_aliases_caller [PyEntries.cons "host" (Py.pstr "10.0.0.5") PyEntries.nil]
     "media_player" "sonos" 0 (by decide)⟩

/-- C4: calling `load_platform` with `info = None` raises nothing and
fires exactly one event, whose `discovered` payload is exactly the
one-key dict `\x7bload_platform: platform\x7d`. -/
theorem C4_no_info_payload_exact (component : String) (platform : String)
    (hass_config : Option Py) :
    (load_platform component platform Option.none hass_config).error = Option.none ∧
    ((load_platform component platform Option.none hass_config).effects.filter isFire) =
      [Effect.fire EVENT_PLATFORM_DISCOVERED
        (PyEntries.cons ATTR_SERVICE (Py.pstr (LOAD_PLATFORM ++ "." ++ component))
          (PyEntries.cons ATTR_DISCOVERED
            (Py.pdict (PyEntries.cons LOAD_PLATFORM (Py.pstr platform) PyEntries.nil))
            PyEntries.nil))] := by
  refine ⟨rfl, rfl⟩

/-- C5: dispatching a service identifier absent from `SERVICE_HANDLERS`
performs only the lock round-trip and the log call: zero events, zero
component loads, and no exception. -/
theorem C5_unknown_service_ignored (config : Py) (service : String) (info : Py)
    (h : serviceHandlersGet service = Option.none) :
    new_service_listener config service info =
      { effects := [Effect.acquire, Effect.log service info, Effect.release],
        error := Option.none } ∧
    ((new_service_listener config service info).effects.filter isFire) = [] ∧
    ((new_service_listener config service info).effects.filter isLoad) = [] := by
  simp [new_service_listener, h, isFire, isLoad]

/-- C5 witness at a service identifier not in the registry. -/
theorem C5_unknown_service_ignored_witness :
    serviceHandlersGet "some_other_service" = Option.none ∧
    (new_service_listener Py.pnone "some_other_service" Py.pnone =
      { effects := [Effect.acquire, Effect.log "some_other_service" Py.pnone,
          Effect.release],
        error := Option.none } ∧
     ((new_service_listener Py.pnone "some_other_service" Py.pnone).effects.filter
        isFire) = [] ∧
     ((new_service_listener Py.pnone "some_other_service" Py.pnone).effects.filter
        isLoad) = []) :=
  ⟨by decide, C5_unknown_service_ignored Py.pnone "some_other_service" Py.pnone (by decide)⟩

/-- C6: the listener registered by `listen` invokes the callback exactly
once with `(service, discovered)` when the event's `service` field is a
member of the requested set, and not at all when it is not. -/
theorem C6_listen_filters (spec : ServiceSpec) (eventData : PyEntries) (s : String)
    (hpresent : eventData.get? ATTR_SERVICE = some (Py.pstr s)) :
    ((listenServices spec).contains s = true →
      discovery_event_listener (listenServices spec) eventData =
        [(Py.pstr s, eventData.getD ATTR_DISCOVERED)]) ∧
    ((listenServices spec).contains s = false →
      discovery_event_listener (listenServices spec) eventData = []) := by
  have hkey : eventData.hasKey ATTR_SERVICE = true := hasKey_of_get? _ _ _ hpresent
  have hval : eventData.getD ATTR_SERVICE = Py.pstr s := by
    simp [PyEntries.getD, hpresent]
  constructor
  · intro hmem
    have hm : s ∈ listenServices spec := by simpa using hmem
    simp [discovery_event_listener, hkey, hval, pyMem, hm]
  · intro hmem
    have hm : ¬ (s ∈ listenServices spec) := by simpa using hmem
    simp [discovery_event_listener, hkey, hval, pyMem, hm]

/-- C6 witness: `listen(["a","b"], cb)` fires once for a `service = "a"`
event and ignores a `service = "c"` event. -/
theorem C6_listen_filters_witness :
    discovery_event_listener (listenServices (ServiceSpec.many ["a", "b"]))
        (PyEntries.cons ATTR_SERVICE (Py.pstr "a")
          (PyEntries.cons ATTR_DISCOVERED (Py.pstr "x") PyEntries.nil)) =
      [(Py.pstr "a", Py.pstr "x")] ∧
    discovery_event_listener (listenServices (ServiceSpec.many ["a", "b"]))
        (PyEntries.cons ATTR_SERVICE (Py.pstr "c") PyEntries.nil) = [] :=
  ⟨(C6_listen_filters (ServiceSpec.many ["a", "b"])
      (PyEntries.cons ATTR_SERVICE (Py.pstr "a")
        (PyEntries.cons ATTR_DISCOVERED (Py.pstr "x") PyEntries.nil)) "a"
      (by decide)).1 (by decide),
   (C6_listen_filters (ServiceSpec.many ["a", "b"])
      (PyEntries.cons ATTR_SERVICE (Py.pstr "c") PyEntries.nil) "c"
      (by decide)).2 (by decide)⟩

/-- C7: whenever a dispatch both loads a component and publishes an
event, the `setup_component` call precedes the `fire` call in the effect
sequence: `discover` with a non-`None` component produces exactly
`[setupComponent, fire]`, and so does every `load_platform` call that
does not raise. -/
theorem C7_load_before_fire (service : String) (discovered : Option Py)
    (component : Py) (hass_config : Option Py) (comp2 : String) (plat : String)
    (info : Option Py) (cfg2 : Option Py)
    (hok : (load_platform comp2 plat info cfg2).error = Option.none) :
    (∃ t d, discover service discovered (some component) hass_config =
        [Effect.setupComponent component hass_config, Effect.fire t d]) ∧
    (∃ t d, (load_platform comp2 plat info cfg2).effects =
        [Effect.setupComponent (Py.pstr comp2) cfg2, Effect.fire t d]) := by
  constructor
  · exact ⟨_, _, rfl⟩
  · cases info with
    | none => exact ⟨_, _, rfl⟩
    | some i =>
        cases i with
        | pstr v => simp [load_platform, setItem] at hok
        | pnone => simp [load_platform, setItem] at hok
        | ppair a b => simp [load_platform, setItem] at hok
        | pdict d => exact ⟨_, _, rfl⟩

/-- C7 witness at concrete arguments. -/
theorem C7_load_before_fire_witness :
    (load_platform "media_player" "sonos" Option.none Option.none).error =
      Option.none ∧
    ((∃ t d, discover "x" Option.none (some (Py.pstr "light")) Option.none =
        [Effect.setupComponent (Py.pstr "light") Option.none, Effect.fire t d]) ∧
     (∃ t d, (load_platform "media_player" "sonos" Option.none Option.none).effects =
        [Effect.setupComponent (Py.pstr "media_player") Option.none,
         Effect.fire t d])) :=
  ⟨rfl,
   C7_load_before_fire "x" Option.none (Py.pstr "light") Option.none "media_player"
     "sonos" Option.none Option.none rfl⟩

/-- Helper for C8: after the first application-start signal the one-shot
listener set is empty and exactly one scan has been started, and this
state is a fixed point of further start signals. -/
theorem fireStartTimes_succ_closed (n : Nat) :
    fireStartTimes (n + 1) = { onceListeners := [], scanStarts := 1 } := by
  induction n with
  | zero => rfl
  | succ m ih =>
      show fireBusEvent (fireStartTimes (m + 1)) EVENT_HOMEASSISTANT_START = _
      rw [ih]
      rfl

/-- C8: the network scan is started exactly once, on the first
application-start signal: `start_discovery` is registered via
`listen_once`, so after `n` start signals the number of scans started is
`min n 1` — a second signal cannot start a second scan. -/
theorem C8_scan_started_once (n : Nat) :
    (fireStartTimes n).scanStarts = min n 1 := by
  cases n with
  | zero => rfl
  | succ m =>
      rw [fireStartTimes_succ_closed]
      show (1 : Nat) = min (m + 1) 1
      omega

/-- C9 counterexample: the claim states the lock is not held across the
loader/publish call chain, i.e. the critical section contains no
`setup_component` and no `fire` effect.  At `("belkin_wemo", None)` the
critical section of the dispatcher trace contains both. -/
theorem C9_dispatch_inside_lock :
    ¬ ((insideLock (new_service_listener (Py.pdict PyEntries.nil) SERVICE_WEMO
          Py.pnone).effects).all (fun e => !(isLoad e || isFire e)) = true) := by
  decide

/-- C9 amended: the `with lock:` block spans the entire body of
`new_service_listener`: every effect of a dispatch — the registry
lookup's log, the component-load and the event-publish included — occurs
inside the critical section, and no effect follows the lock release. -/
theorem C9_lock_spans_entire_body (config : Py) (service : String) (info : Py) :
    afterRelease (new_service_listener config service info).effects = [] ∧
    (new_service_listener config service info).effects =
      Effect.acquire ::
        insideLock (new_service_listener config service info).effects ++
        [Effect.release] := by
  unfold new_service_listener
  rcases hserv : serviceHandlersGet service with _ | ⟨component, platform⟩
  · exact ⟨rfl, rfl⟩
  · rcases platform with _ | plat
    · cases config with
      | pstr v => exact ⟨rfl, rfl⟩
      | pnone => exact ⟨rfl, rfl⟩
      | ppair a b => exact ⟨rfl, rfl⟩
      | pdict d => exact ⟨rfl, rfl⟩
    · cases config with
      | pstr v => exact ⟨rfl, rfl⟩
      | pnone => exact ⟨rfl, rfl⟩
      | ppair a b => exact ⟨rfl, rfl⟩
      | pdict d => exact ⟨rfl, rfl⟩

/-- C10: the listener installed by `listen` checks key presence before
membership, so an event without a `service` key never reaches the
callback (and the listener, a total function, raises nothing), and a
matching event without a `discovered` key passes `None` as the second
callback argument. -/
theorem C10_listener_missing_keys (services : List String) (eventData : PyEntries)
    (s : String) :
    (eventData.hasKey ATTR_SERVICE = false →
      discovery_event_listener services eventData = []) ∧
    (eventData.get? ATTR_SERVICE = some (Py.pstr s) →
      services.contains s = true →
      eventData.get? ATTR_DISCOVERED = Option.none →
      discovery_event_listener services eventData = [(Py.pstr s, Py.pnone)]) := by
  constructor
  · intro habsent
    simp [discovery_event_listener, habsent]
  · intro hpresent hmem hnodisc
    have hkey : eventData.hasKey ATTR_SERVICE = true := hasKey_of_get? _ _ _ hpresent
    have hval : eventData.getD ATTR_SERVICE = Py.pstr s := by
      simp [PyEntries.getD, hpresent]
    have hdisc : eventData.getD ATTR_DISCOVERED = Py.pnone := by
      simp [PyEntries.getD, hnodisc]
    have hm : s ∈ services := by simpa using hmem
    simp [discovery_event_listener, hkey, hval, hdisc, pyMem, hm]

/-- C10 witness: an event without a `service` key is ignored; a matching
event without a `discovered` key yields `None` as the callback's second
argument. -/
theorem C10_listener_missing_keys_witness :
    discovery_event_listener ["a"]
        (PyEntries.cons "other" (Py.pstr "x") PyEntries.nil) = [] ∧
    discovery_event_listener ["a"]
        (PyEntries.cons ATTR_SERVICE (Py.pstr "a") PyEntries.nil) =
      [(Py.pstr "a", Py.pnone)] :=
  ⟨(C10_listener_missing_keys ["a"]
      (PyEntries.cons "other" (Py.pstr "x") PyEntries.nil) "a").1 (by decide),
   (C10_listener_missing_keys ["a"]
      (PyEntries.cons ATTR_SERVICE (Py.pstr "a") PyEntries.nil) "a").2
     (by decide) (by decide) (by decide)⟩

end Discovery
